import Mathlib

/-!
Shallow embedding of `src/src/lib.rs` of the mdn-content-zed extension:
the binary resolver `MDN::rari_binary`, the command construction
`MDN::language_server_command`, and the constructor `MDN::new`.

Host-side collaborators (settings store, PATH lookup, filesystem metadata,
the GitHub release index, the download/extract primitive, the
make-file-executable primitive, and the working-directory listing) are
modelled as an explicit `HostEnv` record of oracles; the resolver is a pure
function from `(MDN, HostEnv)` to a result, the updated process state and a
trace of the observable side effects it performed.
-/

deriving instance DecidableEq for Except

namespace Mdn

/-- Operating system, from `zed_extension_api::Os`. -/
inductive Os where
  | mac
  | linux
  | windows
deriving DecidableEq, Repr

/-- CPU architecture, from `zed_extension_api::Architecture`
(`Aarch64`, `X86`, `X8664`). -/
inductive Architecture where
  | aarch64
  | x86
  | x8664
deriving DecidableEq, Repr

/-- Archive kind passed to `zed::download_file`
(`DownloadedFileType::GzipTar` or `::Zip`). -/
inductive DownloadedFileType where
  | gzipTar
  | zip
deriving DecidableEq, Repr

/-- One asset of a GitHub release: `{name, download_url}`. -/
structure GithubReleaseAsset where
  name : String
  download_url : String
deriving DecidableEq, Repr

/-- A GitHub release: version string plus asset list. -/
structure GithubRelease where
  version : String
  assets : List GithubReleaseAsset
deriving DecidableEq, Repr

/-- The `binary` block of per-project LSP settings:
optional path, optional argument list. -/
structure LspBinarySettings where
  path : Option String
  arguments : Option (List String)
deriving DecidableEq, Repr

/-- Per-project LSP settings as returned by `LspSettings::for_worktree`. -/
structure LspSettings where
  binary : Option LspBinarySettings
deriving DecidableEq, Repr

/-- The worktree facts the resolver consults: the captured shell
environment, the result of `worktree.which("rari")`, and the root path. -/
structure Worktree where
  shell_env : List (String × String)
  which_rari : Option String
  root_path : String

/-- `RariBinary`: resolved executable path, optional extra arguments,
optional environment. -/
structure RariBinary where
  path : String
  args : Option (List String)
  environment : Option (List (String × String))
deriving DecidableEq, Repr

/-- Process-wide extension state `MDN`: the optional cached binary path. -/
structure MDN where
  binary_path : Option String
deriving DecidableEq, Repr

/-- `MDN::new()`. -/
def MDN.new : MDN := { binary_path := none }

/-- All host-collaborator answers for one resolution call. `isFile p`
models `fs::metadata(p).is_ok_and(|s| s.is_file())`; `download_result` and
`make_exec_result` are `none` on success and `some e` on failure with raw
message `e`; `read_dir` is the top-level working-directory listing, each
entry either a name or a per-entry error; `remove_ok` is the outcome of
`fs::remove_dir_all`, which the source discards with `.ok()`. -/
structure HostEnv where
  platform : Os
  arch : Architecture
  lsp_settings : Except String LspSettings
  worktree : Worktree
  latest_release : Except String GithubRelease
  isFile : String → Bool
  download_result : Option String
  make_exec_result : Option String
  read_dir : Except String (List (Except String String))
  remove_ok : String → Bool

/-- Trace of the observable side effects of one resolution call. -/
structure Effects where
  whichCalled : Bool := false
  cacheChecked : Bool := false
  releaseFetched : Bool := false
  assetSearched : Bool := false
  statusDownloading : Bool := false
  downloads : List (String × String × DownloadedFileType) := []
  madeExecutable : List String := []
  removalAttempts : List String := []
deriving DecidableEq, Repr

/-- Result of one resolution call: the returned `Result<RariBinary>`, the
state of `self` afterwards, and the side-effect trace. -/
structure ResolveOutcome where
  result : Except String RariBinary
  state : MDN
  effects : Effects
deriving DecidableEq, Repr

/-- The environment attached to the result: `worktree.shell_env()` on
mac/linux, `None` on windows (lines 26-30 of the source). -/
def environment_for (env : HostEnv) : Option (List (String × String)) :=
  match env.platform with
  | Os.mac => some env.worktree.shell_env
  | Os.linux => some env.worktree.shell_env
  | Os.windows => none

/-- The settings `binary` block, when `LspSettings::for_worktree` succeeded
and the block is present. -/
def settings_binary (env : HostEnv) : Option LspBinarySettings :=
  match env.lsp_settings with
  | Except.ok s => s.binary
  | Except.error _ => none

/-- The arguments captured from the settings `binary` block. -/
def settings_args (env : HostEnv) : Option (List String) :=
  match settings_binary env with
  | some b => b.arguments
  | none => none

/-- The explicitly configured binary path, when present. -/
def settings_path (env : HostEnv) : Option String :=
  match settings_binary env with
  | some b => b.path
  | none => none

/-- Tier 3: the cached path, provided it exists on disk as a regular file
(lines 53-61 of the source). -/
def cache_hit (self : MDN) (env : HostEnv) : Option String :=
  match self.binary_path with
  | some p => if env.isFile p then some p else none
  | none => none

/-- The `assert_name` match of lines 71-79: expected remote asset name per
(architecture, platform), or the `"x86 not supported"` error. The x86_64
linux and windows entries are exactly as written in the source. -/
def assert_name (arch : Architecture) (platform : Os) : Except String String :=
  match arch, platform with
  | Architecture.aarch64, Os.mac => Except.ok "rari-aarch64-apple-darwin.tar.gz"
  | Architecture.aarch64, Os.linux => Except.ok "rari-aarch64-unknown-linux-musl.tar.gz"
  | Architecture.aarch64, Os.windows => Except.ok "rari-aarch64-pc-windows-msvc.zip"
  | Architecture.x86, _ => Except.error "x86 not supported"
  | Architecture.x8664, Os.mac => Except.ok "rari-x86_64-apple-darwin.tar.gz"
  | Architecture.x8664, Os.linux => Except.ok "rari-x86_64-pc-windows-msvc.zip"
  | Architecture.x8664, Os.windows => Except.ok "rari-x86_64-unknown-linux-musl.tar.gz"

/-- The §4.1 table of the spec, written from the spec's words, for
comparison with `assert_name` (the code). -/
def spec_table_name (arch : Architecture) (platform : Os) : Except String String :=
  match arch, platform with
  | Architecture.aarch64, Os.mac => Except.ok "rari-aarch64-apple-darwin.tar.gz"
  | Architecture.aarch64, Os.linux => Except.ok "rari-aarch64-unknown-linux-musl.tar.gz"
  | Architecture.aarch64, Os.windows => Except.ok "rari-aarch64-pc-windows-msvc.zip"
  | Architecture.x86, _ => Except.error "x86 not supported"
  | Architecture.x8664, Os.mac => Except.ok "rari-x86_64-apple-darwin.tar.gz"
  | Architecture.x8664, Os.linux => Except.ok "rari-x86_64-unknown-linux-musl.tar.gz"
  | Architecture.x8664, Os.windows => Except.ok "rari-x86_64-pc-windows-msvc.zip"

/-- The version-qualified local executable path of lines 89-92:
`"<dir>/rari"` on mac/linux, `"<dir>/rari.exe"` on windows. -/
def binary_path_for (platform : Os) (version_dir : String) : String :=
  match platform with
  | Os.mac => version_dir ++ "/rari"
  | Os.linux => version_dir ++ "/rari"
  | Os.windows => version_dir ++ "/rari.exe"

/-- Archive kind chosen at download time (lines 101-104). -/
def download_type_for (platform : Os) : DownloadedFileType :=
  match platform with
  | Os.mac => DownloadedFileType.gzipTar
  | Os.linux => DownloadedFileType.gzipTar
  | Os.windows => DownloadedFileType.zip

/-- The cleanup loop of lines 112-119: walk the directory entries in order;
a per-entry load error aborts with a wrapped message (later entries are not
touched); every loaded entry whose name differs from `version_dir` has its
removal attempted, the outcome discarded. Returns the names whose removal
was attempted and the error, if any. -/
def cleanup_removals (version_dir : String) :
    List (Except String String) → List String × Option String
  | [] => ([], none)
  | Except.error e :: _ => ([], some ("failed to load directory entry " ++ e))
  | Except.ok name :: rest =>
      let r := cleanup_removals version_dir rest
      (if name = version_dir then r.1 else name :: r.1, r.2)

/-- `MDN::rari_binary` (lines 19-129), as explicit state passing over `MDN`
with the side effects traced. Tier order as in the source: explicit
settings path, then `worktree.which("rari")`, then the cached path (if it
is a regular file), then the network fetch. -/
def MDN.rari_binary (self : MDN) (env : HostEnv) : ResolveOutcome :=
  let environment := environment_for env
  let args := settings_args env
  match settings_path env with
  | some path => ⟨Except.ok ⟨path, args, environment⟩, self, {}⟩
  | none =>
    let eff1 : Effects := { whichCalled := true }
    match env.worktree.which_rari with
    | some path => ⟨Except.ok ⟨path, args, environment⟩, self, eff1⟩
    | none =>
      let eff2 : Effects := { eff1 with cacheChecked := true }
      match cache_hit self env with
      | some path => ⟨Except.ok ⟨path, args, environment⟩, self, eff2⟩
      | none =>
        let eff3 : Effects := { eff2 with releaseFetched := true }
        match env.latest_release with
        | Except.error e => ⟨Except.error e, self, eff3⟩
        | Except.ok release =>
          match assert_name env.arch env.platform with
          | Except.error e => ⟨Except.error e, self, eff3⟩
          | Except.ok name =>
            let eff4 : Effects := { eff3 with assetSearched := true }
            match release.assets.find? (fun a => a.name == name) with
            | none =>
                ⟨Except.error ("unable to find " ++ name ++ " in latest release"),
                  self, eff4⟩
            | some asset =>
              let version_dir := "rari-" ++ release.version
              let binary_path := binary_path_for env.platform version_dir
              if env.isFile binary_path then
                ⟨Except.ok ⟨binary_path, args, environment⟩,
                  { binary_path := some binary_path }, eff4⟩
              else
                let eff5 : Effects :=
                  { eff4 with
                    statusDownloading := true,
                    downloads :=
                      [(asset.download_url, version_dir, download_type_for env.platform)] }
                match env.download_result with
                | some e => ⟨Except.error ("failed to download file: " ++ e), self, eff5⟩
                | none =>
                  let eff6 : Effects := { eff5 with madeExecutable := [binary_path] }
                  match env.make_exec_result with
                  | some e => ⟨Except.error e, self, eff6⟩
                  | none =>
                    match env.read_dir with
                    | Except.error e =>
                        ⟨Except.error ("failed to list working directory " ++ e), self, eff6⟩
                    | Except.ok entries =>
                      let cl := cleanup_removals version_dir entries
                      let eff7 : Effects := { eff6 with removalAttempts := cl.1 }
                      match cl.2 with
                      | some e => ⟨Except.error e, self, eff7⟩
                      | none =>
                          ⟨Except.ok ⟨binary_path, args, environment⟩,
                            { binary_path := some binary_path }, eff7⟩

/-- Command descriptor `zed::Command`. -/
structure Command where
  command : String
  args : List String
  env : List (String × String)
deriving DecidableEq, Repr

/-- `MDN::language_server_command` (lines 131-151): resolve the binary,
then build the command: executable = resolved path, arguments = `"lsp"`
followed by the resolver-supplied arguments, environment = the
`CONTENT_ROOT` pair followed by the resolver-supplied environment. -/
def MDN.language_server_command (self : MDN) (henv : HostEnv) :
    Except String Command × MDN :=
  let out := MDN.rari_binary self henv
  match out.result with
  | Except.error e => (Except.error e, out.state)
  | Except.ok rb =>
      (Except.ok
        { command := rb.path,
          args := "lsp" :: rb.args.getD [],
          env := ("CONTENT_ROOT", henv.worktree.root_path ++ "/files")
                   :: rb.environment.getD [] },
        out.state)

/-- Running a sequence of resolution calls from a starting state, threading
the process-wide `MDN` state through. -/
def run_calls : MDN → List HostEnv → MDN
  | st, [] => st
  | st, e :: rest => run_calls (MDN.rari_binary st e).state rest

/-! Concrete host environments used by the witnesses. -/

/-- Release `2.3.0` whose asset list holds exactly the name the code looks
for on x86_64 linux. -/
def release230 : GithubRelease :=
  { version := "2.3.0",
    assets := [{ name := "rari-x86_64-pc-windows-msvc.zip", download_url := "u" }] }

/-- A concrete host: x86_64 linux, no settings, no PATH hit, release
`2.3.0` whose asset list holds exactly the name the code looks for on this
platform, empty filesystem, all primitives succeeding, two entries in the
working directory. -/
def base_env : HostEnv where
  platform := Os.linux
  arch := Architecture.x8664
  lsp_settings := Except.error "no settings"
  worktree := { shell_env := [("HOME", "/home/u")], which_rari := none, root_path := "/proj" }
  latest_release := Except.ok release230
  isFile := fun _ => false
  download_result := none
  make_exec_result := none
  read_dir := Except.ok [Except.ok "rari-2.3.0", Except.ok "rari-1.0.0"]
  remove_ok := fun _ => true

/-- `base_env` on an x86 host. -/
def env_x86 : HostEnv := { base_env with arch := Architecture.x86 }

/-- `base_env` with an explicitly configured binary path and arguments. -/
def env_settings : HostEnv :=
  { base_env with
    lsp_settings :=
      Except.ok
        { binary := some { path := some "/usr/local/bin/tool", arguments := some ["x"] } } }

/-- `base_env` where the version-qualified executable for release `2.3.0`
already exists on disk. -/
def env_installed : HostEnv :=
  { base_env with isFile := fun p => p == "rari-2.3.0/rari" }

/-- `base_env` but with release `1.0.0` as the latest one. -/
def env_fetch_v1 : HostEnv :=
  { base_env with
    latest_release :=
      Except.ok
        { version := "1.0.0",
          assets := [{ name := "rari-x86_64-pc-windows-msvc.zip", download_url := "u1" }] },
    read_dir := Except.ok [Except.ok "rari-1.0.0"] }

/-! Claim theorems. -/

/-- Claim C1 (code divergence): the source's `assert_name` maps
(x86_64, linux) to the windows-msvc zip name and (x86_64, windows) to the
linux-musl tar.gz name — the reverse of the §4.1 table (`spec_table_name`),
which the spec states as the intended mapping; all other entries of the two
functions agree. -/
theorem c1_asset_table_code_divergence :
    assert_name Architecture.x8664 Os.linux = Except.ok "rari-x86_64-pc-windows-msvc.zip"
  ∧ assert_name Architecture.x8664 Os.windows
      = Except.ok "rari-x86_64-unknown-linux-musl.tar.gz"
  ∧ spec_table_name Architecture.x8664 Os.linux
      = Except.ok "rari-x86_64-unknown-linux-musl.tar.gz"
  ∧ spec_table_name Architecture.x8664 Os.windows
      = Except.ok "rari-x86_64-pc-windows-msvc.zip"
  ∧ assert_name Architecture.x8664 Os.linux ≠ spec_table_name Architecture.x8664 Os.linux
  ∧ assert_name Architecture.x8664 Os.windows ≠ spec_table_name Architecture.x8664 Os.windows
  ∧ (∀ platform, assert_name Architecture.aarch64 platform
      = spec_table_name Architecture.aarch64 platform)
  ∧ (∀ platform, assert_name Architecture.x86 platform
      = spec_table_name Architecture.x86 platform)
  ∧ assert_name Architecture.x8664 Os.mac = spec_table_name Architecture.x8664 Os.mac := by
  refine ⟨rfl, rfl, rfl, rfl, by decide, by decide, ?_, ?_, rfl⟩ <;> intro p <;> cases p <;> rfl

/-- Claim C2: when tiers 1-3 miss (no settings path, no PATH hit, no usable
cached path) and the architecture is x86, resolution fails with the
`"x86 not supported"` error; no asset search, no download, no
installation-status change, and no cache write occur. -/
theorem c2_x86_network_tier_fails (self : MDN) (env : HostEnv) (r : GithubRelease)
    (h1 : settings_path env = none)
    (h2 : env.worktree.which_rari = none)
    (h3 : cache_hit self env = none)
    (h4 : env.arch = Architecture.x86)
    (h5 : env.latest_release = Except.ok r) :
    (MDN.rari_binary self env).result = Except.error "x86 not supported"
  ∧ (MDN.rari_binary self env).state = self
  ∧ (MDN.rari_binary self env).effects.assetSearched = false
  ∧ (MDN.rari_binary self env).effects.downloads = []
  ∧ (MDN.rari_binary self env).effects.statusDownloading = false
  ∧ (MDN.rari_binary self env).effects.madeExecutable = [] := by
  simp [MDN.rari_binary, h1, h2, h3, h4, h5, assert_name]

/-- Claim C2 witness: the concrete x86 host. -/
theorem c2_witness :
    (MDN.rari_binary MDN.new env_x86).result = Except.error "x86 not supported"
  ∧ (MDN.rari_binary MDN.new env_x86).state = MDN.new
  ∧ (MDN.rari_binary MDN.new env_x86).effects.assetSearched = false
  ∧ (MDN.rari_binary MDN.new env_x86).effects.downloads = []
  ∧ (MDN.rari_binary MDN.new env_x86).effects.statusDownloading = false
  ∧ (MDN.rari_binary MDN.new env_x86).effects.madeExecutable = [] :=
  c2_x86_network_tier_fails MDN.new env_x86
    { version := "2.3.0",
      assets := [{ name := "rari-x86_64-pc-windows-msvc.zip", download_url := "u" }] }
    rfl rfl rfl rfl rfl

/-- Claim C3: an explicitly configured binary path is returned verbatim
with the configured arguments and the platform environment; the side-effect
trace is empty — no PATH search, no cache check, no release fetch, no
download — and the process state is unchanged. -/
theorem c3_settings_override (self : MDN) (env : HostEnv)
    (s : LspSettings) (b : LspBinarySettings) (p : String)
    (hs : env.lsp_settings = Except.ok s)
    (hb : s.binary = some b)
    (hp : b.path = some p) :
    (MDN.rari_binary self env).result
      = Except.ok { path := p, args := b.arguments, environment := environment_for env }
  ∧ (MDN.rari_binary self env).state = self
  ∧ (MDN.rari_binary self env).effects.whichCalled = false
  ∧ (MDN.rari_binary self env).effects.cacheChecked = false
  ∧ (MDN.rari_binary self env).effects.releaseFetched = false
  ∧ (MDN.rari_binary self env).effects = {} := by
  simp [MDN.rari_binary, settings_path, settings_args, settings_binary, hs, hb, hp]

/-- Claim C3 witness: the concrete host with a configured path. -/
theorem c3_witness :
    (MDN.rari_binary MDN.new env_settings).result
      = Except.ok
          { path := "/usr/local/bin/tool", args := some ["x"],
            environment := environment_for env_settings }
  ∧ (MDN.rari_binary MDN.new env_settings).state = MDN.new
  ∧ (MDN.rari_binary MDN.new env_settings).effects.whichCalled = false
  ∧ (MDN.rari_binary MDN.new env_settings).effects.cacheChecked = false
  ∧ (MDN.rari_binary MDN.new env_settings).effects.releaseFetched = false
  ∧ (MDN.rari_binary MDN.new env_settings).effects = {} :=
  c3_settings_override MDN.new env_settings
    { binary := some { path := some "/usr/local/bin/tool", arguments := some ["x"] } }
    { path := some "/usr/local/bin/tool", arguments := some ["x"] }
    "/usr/local/bin/tool" rfl rfl rfl

/-- Every successful resolution, whatever tier produced it, carries the
platform environment and the settings-captured arguments. -/
lemma rari_binary_ok_env_args (self : MDN) (env : HostEnv) (rb : RariBinary)
    (h : (MDN.rari_binary self env).result = Except.ok rb) :
    rb.environment = environment_for env ∧ rb.args = settings_args env := by
  simp only [MDN.rari_binary] at h
  repeat' split at h
  all_goals simp at h
  all_goals (subst h; exact ⟨rfl, rfl⟩)

/-- Claim C4: when tiers 1-3 miss and the version-qualified executable for
the fetched release already exists as a file, resolution succeeds with that
path and performs no download, no installation-status change, no
make-executable call and no cleanup; the path is cached. -/
theorem c4_already_installed_skips_download (self : MDN) (env : HostEnv)
    (r : GithubRelease) (nm : String) (asset : GithubReleaseAsset)
    (h1 : settings_path env = none)
    (h2 : env.worktree.which_rari = none)
    (h3 : cache_hit self env = none)
    (h4 : env.latest_release = Except.ok r)
    (h5 : assert_name env.arch env.platform = Except.ok nm)
    (h6 : r.assets.find? (fun a => a.name == nm) = some asset)
    (h7 : env.isFile (binary_path_for env.platform ("rari-" ++ r.version)) = true) :
    (MDN.rari_binary self env).result
      = Except.ok
          { path := binary_path_for env.platform ("rari-" ++ r.version),
            args := settings_args env, environment := environment_for env }
  ∧ (MDN.rari_binary self env).effects.statusDownloading = false
  ∧ (MDN.rari_binary self env).effects.downloads = []
  ∧ (MDN.rari_binary self env).effects.madeExecutable = []
  ∧ (MDN.rari_binary self env).effects.removalAttempts = []
  ∧ (MDN.rari_binary self env).state
      = { binary_path := some (binary_path_for env.platform ("rari-" ++ r.version)) } := by
  simp [MDN.rari_binary, h1, h2, h3, h4, h5, h6, h7]

/-- Claim C4 witness: the concrete host where release `2.3.0` is already
installed. -/
theorem c4_witness :
    (MDN.rari_binary MDN.new env_installed).result
      = Except.ok
          { path := binary_path_for env_installed.platform ("rari-" ++ release230.version),
            args := settings_args env_installed, environment := environment_for env_installed }
  ∧ (MDN.rari_binary MDN.new env_installed).effects.statusDownloading = false
  ∧ (MDN.rari_binary MDN.new env_installed).effects.downloads = []
  ∧ (MDN.rari_binary MDN.new env_installed).effects.madeExecutable = []
  ∧ (MDN.rari_binary MDN.new env_installed).effects.removalAttempts = []
  ∧ (MDN.rari_binary MDN.new env_installed).state
      = { binary_path :=
            some (binary_path_for env_installed.platform ("rari-" ++ release230.version)) } :=
  c4_already_installed_skips_download MDN.new env_installed release230
    "rari-x86_64-pc-windows-msvc.zip"
    { name := "rari-x86_64-pc-windows-msvc.zip", download_url := "u" }
    rfl rfl rfl rfl rfl (by decide) (by decide)

/-- Claim C5: when tiers 1-3 miss and the release query returned release
`r`, any successful resolution resolves to the version-qualified local
executable path for `r.version` as computed by `binary_path_for`. -/
theorem c5_fetched_path_version_qualified (self : MDN) (env : HostEnv)
    (r : GithubRelease) (rb : RariBinary)
    (h1 : settings_path env = none)
    (h2 : env.worktree.which_rari = none)
    (h3 : cache_hit self env = none)
    (h4 : env.latest_release = Except.ok r)
    (h5 : (MDN.rari_binary self env).result = Except.ok rb) :
    rb.path = binary_path_for env.platform ("rari-" ++ r.version) := by
  simp only [MDN.rari_binary, h1, h2, h3, h4] at h5
  repeat' split at h5
  all_goals simp at h5
  all_goals (subst h5; rfl)

/-- Claim C5 witness: on the concrete host, the fetch of release `2.3.0`
resolves to `"rari-2.3.0/rari"`. -/
theorem c5_witness :
    ("rari-2.3.0/rari" : String)
      = binary_path_for base_env.platform ("rari-" ++ release230.version) :=
  c5_fetched_path_version_qualified MDN.new base_env release230
    { path := "rari-2.3.0/rari", args := none, environment := some [("HOME", "/home/u")] }
    rfl rfl rfl rfl (by decide)

/-- Claim C6: every successful resolution carries the worktree shell
environment on mac and linux and no environment on windows, independently
of the tier that produced the path. -/
theorem c6_environment_propagation (self : MDN) (env : HostEnv) (rb : RariBinary)
    (h : (MDN.rari_binary self env).result = Except.ok rb) :
    rb.environment
      = match env.platform with
        | Os.mac => some env.worktree.shell_env
        | Os.linux => some env.worktree.shell_env
        | Os.windows => none :=
  (rari_binary_ok_env_args self env rb h).1

/-- Claim C6 witness: the settings-tier result on the concrete linux host
carries the shell environment. -/
theorem c6_witness :
    (RariBinary.mk "/usr/local/bin/tool" (some ["x"])
        (some [("HOME", "/home/u")])).environment
      = match env_settings.platform with
        | Os.mac => some env_settings.worktree.shell_env
        | Os.linux => some env_settings.worktree.shell_env
        | Os.windows => none :=
  c6_environment_propagation MDN.new env_settings
    (RariBinary.mk "/usr/local/bin/tool" (some ["x"]) (some [("HOME", "/home/u")])) rfl

/-- Claim C7: every successfully produced command descriptor has the
resolved path as executable, arguments `"lsp"` followed by the
resolver-supplied arguments, and environment the `CONTENT_ROOT` pair
followed by the resolver-supplied environment. -/
theorem c7_command_descriptor (self : MDN) (henv : HostEnv) (cmd : Command) (st : MDN)
    (h : MDN.language_server_command self henv = (Except.ok cmd, st)) :
    ∃ rb, (MDN.rari_binary self henv).result = Except.ok rb
      ∧ cmd.command = rb.path
      ∧ cmd.args = "lsp" :: rb.args.getD []
      ∧ cmd.env = ("CONTENT_ROOT", henv.worktree.root_path ++ "/files")
                    :: rb.environment.getD [] := by
  simp only [MDN.language_server_command] at h
  split at h
  · simp_all
  · rename_i rb hrb
    injection h with h1 h2
    injection h1 with h1
    subst h1
    exact ⟨rb, hrb, rfl, rfl, rfl⟩

/-- Claim C7 witness: the descriptor built on the concrete host with a
configured path. -/
theorem c7_witness :
    ∃ rb, (MDN.rari_binary MDN.new env_settings).result = Except.ok rb
      ∧ (Command.mk "/usr/local/bin/tool" ["lsp", "x"]
            [("CONTENT_ROOT", "/proj/files"), ("HOME", "/home/u")]).command = rb.path
      ∧ (Command.mk "/usr/local/bin/tool" ["lsp", "x"]
            [("CONTENT_ROOT", "/proj/files"), ("HOME", "/home/u")]).args
          = "lsp" :: rb.args.getD []
      ∧ (Command.mk "/usr/local/bin/tool" ["lsp", "x"]
            [("CONTENT_ROOT", "/proj/files"), ("HOME", "/home/u")]).env
          = ("CONTENT_ROOT", env_settings.worktree.root_path ++ "/files")
              :: rb.environment.getD [] :=
  c7_command_descriptor MDN.new env_settings
    (Command.mk "/usr/local/bin/tool" ["lsp", "x"]
      [("CONTENT_ROOT", "/proj/files"), ("HOME", "/home/u")])
    MDN.new (by decide)

/-- When every directory entry loads, the cleanup loop attempts removal of
exactly the entries whose name differs from the version directory, and no
error is surfaced. -/
lemma cleanup_removals_ok (vd : String) (names : List String) :
    cleanup_removals vd (names.map Except.ok)
      = (names.filter (fun n => ! (n == vd)), none) := by
  induction names with
  | nil => rfl
  | cons n rest ih =>
      by_cases hn : n = vd <;> simp [cleanup_removals, ih, List.filter_cons, hn]

/-- Every resolution call either leaves the process state unchanged, or
succeeds from the network-fetch tier and caches exactly the resolved
path. -/
lemma rari_binary_state_cases (self : MDN) (env : HostEnv) :
    (MDN.rari_binary self env).state = self
  ∨ ∃ rb, (MDN.rari_binary self env).result = Except.ok rb
      ∧ (MDN.rari_binary self env).state.binary_path = some rb.path
      ∧ (MDN.rari_binary self env).effects.releaseFetched = true := by
  simp only [MDN.rari_binary]
  repeat' split
  all_goals first
    | exact Or.inl rfl
    | exact Or.inr ⟨_, rfl, rfl, rfl⟩

/-- Claim C8: after a fresh successful install (download branch taken, all
steps succeed, every directory entry loads), resolution succeeds with the
version-qualified path, removal is attempted on exactly the top-level
entries whose name differs from the version directory, the path is cached,
and the outcome is independent of the removal results (removal failures are
swallowed). -/
theorem c8_cleanup_after_fresh_install (self : MDN) (env : HostEnv)
    (r : GithubRelease) (nm : String) (asset : GithubReleaseAsset)
    (names : List String) (f : String → Bool)
    (h1 : settings_path env = none)
    (h2 : env.worktree.which_rari = none)
    (h3 : cache_hit self env = none)
    (h4 : env.latest_release = Except.ok r)
    (h5 : assert_name env.arch env.platform = Except.ok nm)
    (h6 : r.assets.find? (fun a => a.name == nm) = some asset)
    (h7 : env.isFile (binary_path_for env.platform ("rari-" ++ r.version)) = false)
    (h8 : env.download_result = none)
    (h9 : env.make_exec_result = none)
    (h10 : env.read_dir = Except.ok (names.map Except.ok)) :
    (MDN.rari_binary self env).result
      = Except.ok
          { path := binary_path_for env.platform ("rari-" ++ r.version),
            args := settings_args env, environment := environment_for env }
  ∧ (MDN.rari_binary self env).effects.removalAttempts
      = names.filter (fun n => ! (n == "rari-" ++ r.version))
  ∧ (MDN.rari_binary self env).state
      = { binary_path := some (binary_path_for env.platform ("rari-" ++ r.version)) }
  ∧ MDN.rari_binary self { env with remove_ok := f } = MDN.rari_binary self env := by
  refine ⟨?_, ?_, ?_, rfl⟩ <;>
    simp [MDN.rari_binary, h1, h2, h3, h4, h5, h6, h7, h8, h9, h10, cleanup_removals_ok]

/-- Claim C8 witness: the fresh install of release `2.3.0` on the concrete
host removes exactly the stale `rari-1.0.0` entry. -/
theorem c8_witness :
    (MDN.rari_binary MDN.new base_env).result
      = Except.ok
          { path := binary_path_for base_env.platform ("rari-" ++ release230.version),
            args := settings_args base_env, environment := environment_for base_env }
  ∧ (MDN.rari_binary MDN.new base_env).effects.removalAttempts
      = ["rari-2.3.0", "rari-1.0.0"].filter (fun n => ! (n == "rari-" ++ release230.version))
  ∧ (MDN.rari_binary MDN.new base_env).state
      = { binary_path :=
            some (binary_path_for base_env.platform ("rari-" ++ release230.version)) }
  ∧ MDN.rari_binary MDN.new { base_env with remove_ok := fun _ => false }
      = MDN.rari_binary MDN.new base_env :=
  c8_cleanup_after_fresh_install MDN.new base_env release230
    "rari-x86_64-pc-windows-msvc.zip"
    { name := "rari-x86_64-pc-windows-msvc.zip", download_url := "u" }
    ["rari-2.3.0", "rari-1.0.0"] (fun _ => false)
    rfl rfl rfl rfl rfl (by decide) rfl rfl rfl rfl

/-- Claim C9 counterexample: the cached path is not written exactly once
per process lifetime. Starting from `MDN::new`, a first call fetches
release `1.0.0` successfully and caches its path; a second resolution call
(cached file no longer on disk, latest release now `2.3.0`) fetches again
and overwrites the cached path with a different value. -/
theorem c9_counterexample :
    (MDN.rari_binary MDN.new env_fetch_v1).result
      = Except.ok
          { path := "rari-1.0.0/rari", args := none,
            environment := some [("HOME", "/home/u")] }
  ∧ (MDN.rari_binary MDN.new env_fetch_v1).state.binary_path = some "rari-1.0.0/rari"
  ∧ (MDN.rari_binary (MDN.rari_binary MDN.new env_fetch_v1).state base_env).state.binary_path
      = some "rari-2.3.0/rari"
  ∧ (MDN.rari_binary (MDN.rari_binary MDN.new env_fetch_v1).state base_env).state
      ≠ (MDN.rari_binary MDN.new env_fetch_v1).state := by
  refine ⟨by decide, by decide, by decide, by decide⟩

/-- Claim C9 (amended): the cached path starts empty at process start; any
call that finds the cached file on disk leaves the state unchanged (so the
cache is read, not rewritten, while its file persists); and any call either
leaves the state unchanged or is a successful network fetch that caches the
resolved path — so the cache is never cleared and is only ever overwritten
by a later successful fetch. -/
theorem c9_cache_lifecycle (self self2 : MDN) (env env2 : HostEnv) (p : String)
    (hp : self.binary_path = some p) (hf : env.isFile p = true) :
    MDN.new.binary_path = none
  ∧ (MDN.rari_binary self env).state = self
  ∧ ((MDN.rari_binary self2 env2).state = self2
      ∨ ∃ rb, (MDN.rari_binary self2 env2).result = Except.ok rb
          ∧ (MDN.rari_binary self2 env2).state.binary_path = some rb.path
          ∧ (MDN.rari_binary self2 env2).effects.releaseFetched = true) := by
  refine ⟨rfl, ?_, rari_binary_state_cases self2 env2⟩
  have hc : cache_hit self env = some p := by simp [cache_hit, hp, hf]
  simp only [MDN.rari_binary, hc]
  repeat' split
  all_goals rfl

/-- Claim C9 witness: a state already holding the installed `2.3.0` path is
left unchanged by a call on the concrete host where that file exists. -/
theorem c9_witness :
    MDN.new.binary_path = none
  ∧ (MDN.rari_binary { binary_path := some "rari-2.3.0/rari" } env_installed).state
      = { binary_path := some "rari-2.3.0/rari" }
  ∧ ((MDN.rari_binary MDN.new base_env).state = MDN.new
      ∨ ∃ rb, (MDN.rari_binary MDN.new base_env).result = Except.ok rb
          ∧ (MDN.rari_binary MDN.new base_env).state.binary_path = some rb.path
          ∧ (MDN.rari_binary MDN.new base_env).effects.releaseFetched = true) :=
  c9_cache_lifecycle { binary_path := some "rari-2.3.0/rari" } MDN.new
    env_installed base_env "rari-2.3.0/rari" rfl (by decide)

/-- Claim C10: a resolution call that returns an error leaves the
process-wide state — in particular the cached path — exactly as it was
before the call. -/
theorem c10_error_preserves_cache (self : MDN) (env : HostEnv) (e : String)
    (h : (MDN.rari_binary self env).result = Except.error e) :
    (MDN.rari_binary self env).state = self := by
  rcases rari_binary_state_cases self env with hs | ⟨rb, hok, -, -⟩
  · exact hs
  · rw [h] at hok
    exact (Except.noConfusion hok)

/-- Claim C10 witness: the failing x86 resolution leaves the fresh state
unchanged. -/
theorem c10_witness :
    (MDN.rari_binary MDN.new env_x86).state = MDN.new :=
  c10_error_preserves_cache MDN.new env_x86 "x86 not supported" (by decide)

end Mdn
